import Mathlib

/-!
Verification of the prediction-serving path of the Polish housing
price repository (`api/app.py`, `api/schemas.py`).

The embedding models:
  * the JSON-level values a request body can carry (`PyVal`),
  * the pydantic schema `PropertyData` and its validation semantics
    (`validate`): required fields fail when absent or ill-typed,
    `Optional` fields take their declared default when absent and accept
    an explicit `null`, plain-`int` fields with a default take the
    default when absent but reject `null`; unknown payload keys are
    never consulted (pydantic's default extra-field behaviour is to
    ignore them),
  * the model store populated by `load_models` (a dict keyed by mode),
  * the dispatcher `predict`, which also returns the list of rows the
    selected pipeline was invoked on, so that "invoked exactly once on
    this row" is a statement about the result.

Numbers are modelled as rationals: the service only moves numeric
values between the request, the pipeline and the response, and Python's
`float(...)` conversion of the pipeline's scalar output is the identity
on the value itself.
-/

/-- A Python/JSON value as it appears in a request payload or in a
DataFrame cell after `data.dict()`. -/
inductive PyVal where
  | null : PyVal
  | boolV : Bool → PyVal
  | intV : Int → PyVal
  | floatV : ℚ → PyVal
  | strV : String → PyVal
deriving DecidableEq, Repr

/-- A JSON object / single DataFrame row: ordered key-value pairs. -/
abbrev Payload := List (String × PyVal)

/-- First-match lookup of a key, as a Python dict / JSON object read. -/
def lookupKey (p : Payload) (n : String) : Option PyVal :=
  match p with
  | [] => Option.none
  | (k, v) :: rest => if k = n then Option.some v else lookupKey rest n

/-- The validated property record of `api/schemas.py` (`PropertyData`).
`Optional[float]` / `Optional[str]` fields are `Option`-valued because
pydantic accepts an explicit `null` for them (becoming Python `None`);
the amenity flags are plain `int` fields with default `0`. -/
structure PropertyData where
  city : String
  type : String
  squareMeters : ℚ
  rooms : ℚ
  floor : Option ℚ
  floorCount : Option ℚ
  buildYear : Option ℚ
  centreDistance : ℚ
  poiCount : ℚ
  schoolDistance : ℚ
  clinicDistance : ℚ
  postOfficeDistance : ℚ
  kindergartenDistance : ℚ
  restaurantDistance : ℚ
  collegeDistance : ℚ
  pharmacyDistance : ℚ
  ownership : String
  buildingMaterial : Option String
  condition : Option String
  hasParkingSpace : Int
  hasBalcony : Int
  hasElevator : Int
  hasSecurity : Int
  hasStorageRoom : Int
deriving DecidableEq, Repr

/-- Required `str` field: present string, or validation error. -/
def reqStr (p : Payload) (n : String) : Except String String :=
  match lookupKey p n with
  | Option.some (PyVal.strV s) => Except.ok s
  | Option.some _ => Except.error (n ++ ": str type expected")
  | Option.none => Except.error (n ++ ": field required")

/-- Required `float` field: accepts a JSON float or int (Python ints
coerce to float), or validation error. -/
def reqFloat (p : Payload) (n : String) : Except String ℚ :=
  match lookupKey p n with
  | Option.some (PyVal.floatV q) => Except.ok q
  | Option.some (PyVal.intV i) => Except.ok (i : ℚ)
  | Option.some _ => Except.error (n ++ ": float type expected")
  | Option.none => Except.error (n ++ ": field required")

/-- `Optional[float]` field with default `d`: absent ↦ default,
explicit `null` ↦ `None`, numeric ↦ its value. -/
def optFloat (p : Payload) (n : String) (d : ℚ) : Except String (Option ℚ) :=
  match lookupKey p n with
  | Option.some (PyVal.floatV q) => Except.ok (Option.some q)
  | Option.some (PyVal.intV i) => Except.ok (Option.some (i : ℚ))
  | Option.some PyVal.null => Except.ok Option.none
  | Option.some _ => Except.error (n ++ ": float type expected")
  | Option.none => Except.ok (Option.some d)

/-- `Optional[str]` field with default `d`: absent ↦ default, explicit
`null` ↦ `None`, string ↦ itself. -/
def optStr (p : Payload) (n : String) (d : String) : Except String (Option String) :=
  match lookupKey p n with
  | Option.some (PyVal.strV s) => Except.ok (Option.some s)
  | Option.some PyVal.null => Except.ok Option.none
  | Option.some _ => Except.error (n ++ ": str type expected")
  | Option.none => Except.ok (Option.some d)

/-- Plain `int` field with default `d` (the amenity flags): absent ↦
default, any integer accepted, bools coerce (`True ↦ 1`), integral
floats coerce, `null` rejected (the field is not `Optional`). -/
def intField (p : Payload) (n : String) (d : Int) : Except String Int :=
  match lookupKey p n with
  | Option.some (PyVal.intV i) => Except.ok i
  | Option.some (PyVal.boolV b) => Except.ok (if b then 1 else 0)
  | Option.some (PyVal.floatV q) =>
      if q.den = 1 then Except.ok q.num else Except.error (n ++ ": int type expected")
  | Option.some _ => Except.error (n ++ ": int type expected")
  | Option.none => Except.ok d

/-- The Request Validator: pydantic validation of `PropertyData` against
an arbitrary payload. Declared fields are read by name; keys outside the
schema are never consulted (pydantic ignores extra fields). -/
def validate (p : Payload) : Except String PropertyData := do
  let city ← reqStr p "city"
  let ty ← reqStr p "type"
  let squareMeters ← reqFloat p "squareMeters"
  let rooms ← reqFloat p "rooms"
  let floor ← optFloat p "floor" 1
  let floorCount ← optFloat p "floorCount" 1
  let buildYear ← optFloat p "buildYear" 1980
  let centreDistance ← reqFloat p "centreDistance"
  let poiCount ← reqFloat p "poiCount"
  let schoolDistance ← reqFloat p "schoolDistance"
  let clinicDistance ← reqFloat p "clinicDistance"
  let postOfficeDistance ← reqFloat p "postOfficeDistance"
  let kindergartenDistance ← reqFloat p "kindergartenDistance"
  let restaurantDistance ← reqFloat p "restaurantDistance"
  let collegeDistance ← reqFloat p "collegeDistance"
  let pharmacyDistance ← reqFloat p "pharmacyDistance"
  let ownership ← reqStr p "ownership"
  let buildingMaterial ← optStr p "buildingMaterial" "brick"
  let condition ← optStr p "condition" "unknown"
  let hasParkingSpace ← intField p "hasParkingSpace" 0
  let hasBalcony ← intField p "hasBalcony" 0
  let hasElevator ← intField p "hasElevator" 0
  let hasSecurity ← intField p "hasSecurity" 0
  let hasStorageRoom ← intField p "hasStorageRoom" 0
  Except.ok
    { city := city, type := ty, squareMeters := squareMeters, rooms := rooms,
      floor := floor, floorCount := floorCount, buildYear := buildYear,
      centreDistance := centreDistance, poiCount := poiCount,
      schoolDistance := schoolDistance, clinicDistance := clinicDistance,
      postOfficeDistance := postOfficeDistance,
      kindergartenDistance := kindergartenDistance,
      restaurantDistance := restaurantDistance,
      collegeDistance := collegeDistance,
      pharmacyDistance := pharmacyDistance, ownership := ownership,
      buildingMaterial := buildingMaterial, condition := condition,
      hasParkingSpace := hasParkingSpace, hasBalcony := hasBalcony,
      hasElevator := hasElevator, hasSecurity := hasSecurity,
      hasStorageRoom := hasStorageRoom }

/-- The declared schema field names, in declaration order: exactly the
keys of `data.dict()` and hence the columns of the one-row DataFrame. -/
def fieldNames : List String :=
  ["city", "type", "squareMeters", "rooms", "floor", "floorCount",
   "buildYear", "centreDistance", "poiCount", "schoolDistance",
   "clinicDistance", "postOfficeDistance", "kindergartenDistance",
   "restaurantDistance", "collegeDistance", "pharmacyDistance",
   "ownership", "buildingMaterial", "condition", "hasParkingSpace",
   "hasBalcony", "hasElevator", "hasSecurity", "hasStorageRoom"]

/-- Cell of an `Optional[float]` field in the DataFrame row. -/
def optFloatCell (v : Option ℚ) : PyVal :=
  match v with
  | Option.none => PyVal.null
  | Option.some q => PyVal.floatV q

/-- Cell of an `Optional[str]` field in the DataFrame row. -/
def optStrCell (v : Option String) : PyVal :=
  match v with
  | Option.none => PyVal.null
  | Option.some s => PyVal.strV s

/-- `data.dict()` followed by `pd.DataFrame([input_data])`: the single
row handed to the pipeline, keyed by the schema field names. -/
def toRow (d : PropertyData) : Payload :=
  [("city", PyVal.strV d.city), ("type", PyVal.strV d.type),
   ("squareMeters", PyVal.floatV d.squareMeters),
   ("rooms", PyVal.floatV d.rooms),
   ("floor", optFloatCell d.floor),
   ("floorCount", optFloatCell d.floorCount),
   ("buildYear", optFloatCell d.buildYear),
   ("centreDistance", PyVal.floatV d.centreDistance),
   ("poiCount", PyVal.floatV d.poiCount),
   ("schoolDistance", PyVal.floatV d.schoolDistance),
   ("clinicDistance", PyVal.floatV d.clinicDistance),
   ("postOfficeDistance", PyVal.floatV d.postOfficeDistance),
   ("kindergartenDistance", PyVal.floatV d.kindergartenDistance),
   ("restaurantDistance", PyVal.floatV d.restaurantDistance),
   ("collegeDistance", PyVal.floatV d.collegeDistance),
   ("pharmacyDistance", PyVal.floatV d.pharmacyDistance),
   ("ownership", PyVal.strV d.ownership),
   ("buildingMaterial", optStrCell d.buildingMaterial),
   ("condition", optStrCell d.condition),
   ("hasParkingSpace", PyVal.intV d.hasParkingSpace),
   ("hasBalcony", PyVal.intV d.hasBalcony),
   ("hasElevator", PyVal.intV d.hasElevator),
   ("hasSecurity", PyVal.intV d.hasSecurity),
   ("hasStorageRoom", PyVal.intV d.hasStorageRoom)]

/-- A trained pipeline as the serving layer sees it: an opaque
`predict(tabular_input) → numeric_array` capability that may raise
(modelled as `Except.error` carrying `str(e)`). -/
structure Pipeline where
  run : Payload → Except String (List ℚ)

/-- The model store: the `models` dict of `api/app.py`. -/
abbrev ModelStore := List (String × Pipeline)

/-- Dict lookup on the model store (`models[mode]` / `mode in models`). -/
def storeGet (st : ModelStore) (mode : String) : Option Pipeline :=
  match st with
  | [] => Option.none
  | (k, v) :: rest => if k = mode then Option.some v else storeGet rest mode

/-- `load_models` of `api/app.py`: best-effort, per-mode startup load.
`saleExists` / `rentExists` model `os.path.exists` on the two fixed
artifact paths; `salePipe` / `rentPipe` are what `joblib.load` would
return for each file. Each file is loaded independently of the other. -/
def load_models (saleExists rentExists : Bool) (salePipe rentPipe : Pipeline) :
    ModelStore :=
  (if saleExists then [("sale", salePipe)] else []) ++
    (if rentExists then [("rent", rentPipe)] else [])

/-- An HTTP-level outcome of `predict`: a success body
`{"mode": ..., "predicted_price": ...}` or an `HTTPException`. -/
inductive Response where
  | ok : String → ℚ → Response
  | httpError : Nat → String → Response
deriving DecidableEq, Repr

/-- Message of the numpy `IndexError` raised by `prediction[0]` when the
pipeline returns an empty array; it is raised inside the `try` block. -/
def emptyOutputMsg : String := "index 0 is out of bounds for axis 0 with size 0"

/-- The Prediction Dispatcher, `predict` of `api/app.py`. The second
component of the result is the list of rows the selected pipeline was
invoked on during the call (so «invoked exactly once on row r» is
`… = (resp, [r])`).

Mirrors the source: reject a mode outside {"sale", "rent"} with a 400;
reject a valid mode absent from the store with a 500; otherwise build
the one-row DataFrame, invoke the pipeline inside `try`, and return the
first scalar of its output with the echoed mode; any exception in the
`try` block becomes a 500 carrying `str(e)`. -/
def predict (st : ModelStore) (mode : String) (data : PropertyData) :
    Response × List Payload :=
  if mode ∉ (["sale", "rent"] : List String) then
    (Response.httpError 400 "Mode must be 'sale' or 'rent'", [])
  else
    match storeGet st mode with
    | Option.none =>
        (Response.httpError 500 ("Model for " ++ mode ++ " not loaded"), [])
    | Option.some model =>
        let df := toRow data
        match model.run df with
        | Except.error e => (Response.httpError 500 e, [df])
        | Except.ok pred =>
            match pred with
            | [] => (Response.httpError 500 emptyOutputMsg, [df])
            | x :: _ => (Response.ok mode x, [df])

/-- One HTTP transaction of the server: the handler reads the store and
never writes it (no assignment to `models` occurs in `predict`), so the
store after the request is the store before it. -/
def handleRequest (st : ModelStore) (mode : String) (data : PropertyData) :
    Response × ModelStore :=
  ((predict st mode data).1, st)

/-! ### Helper lemmas and sample data -/

/-- `Except` bind on a success, for unfolding `validate`. -/
theorem ok_bind {ε α β : Type} (a : α) (f : α → Except ε β) :
    (Except.ok a : Except ε α) >>= f = f a := rfl

/-- The spec's §8 example record, fully defaulted. -/
def sampleRecord : PropertyData :=
  { city := "warszawa", type := "blockOfFlats", squareMeters := 50, rooms := 2,
    floor := Option.some 1, floorCount := Option.some 1,
    buildYear := Option.some 1980, centreDistance := 2, poiCount := 10,
    schoolDistance := 1/2, clinicDistance := 1, postOfficeDistance := 1/2,
    kindergartenDistance := 1/2, restaurantDistance := 1/2,
    collegeDistance := 2, pharmacyDistance := 1/2,
    ownership := "condominium", buildingMaterial := Option.some "brick",
    condition := Option.some "unknown", hasParkingSpace := 0,
    hasBalcony := 0, hasElevator := 0, hasSecurity := 0, hasStorageRoom := 0 }

/-- A deterministic stand-in pipeline returning one scalar. -/
def constPipe : Pipeline := ⟨fun _ => Except.ok [412345]⟩

/-- A stand-in pipeline whose invocation raises. -/
def failPipe : Pipeline :=
  ⟨fun _ => Except.error "could not convert string to float"⟩

/-- A mode that is one of "sale"/"rent" is a member of the mode list. -/
theorem mode_mem_of_valid (mode : String) (h : mode = "sale" ∨ mode = "rent") :
    mode ∈ (["sale", "rent"] : List String) := by
  rcases h with h | h <;> simp [h]

/-! ### C1: success path -/

/-- C1: for a validated record and a structurally valid mode whose
pipeline is loaded and returns a nonempty numeric array, `predict`
invokes that pipeline exactly once, on the single row `toRow data`
whose column names are exactly the schema field names, and answers
`{"mode": mode, "predicted_price": first output scalar}`. -/
theorem predict_valid_mode_loaded (st : ModelStore) (mode : String)
    (data : PropertyData) (pipe : Pipeline) (x : ℚ) (rest : List ℚ)
    (hmode : mode = "sale" ∨ mode = "rent")
    (hpipe : storeGet st mode = Option.some pipe)
    (hrun : pipe.run (toRow data) = Except.ok (x :: rest)) :
    predict st mode data = (Response.ok mode x, [toRow data]) ∧
      List.map Prod.fst (toRow data) = fieldNames := by
  constructor
  · unfold predict
    rw [if_neg (not_not_intro (mode_mem_of_valid mode hmode)), hpipe]
    simp [hrun]
  · rfl

/-- Witness for C1 at the spec's example record and a concrete store. -/
theorem predict_valid_mode_loaded_witness :
    predict [("sale", constPipe)] "sale" sampleRecord =
        (Response.ok "sale" 412345, [toRow sampleRecord]) ∧
      List.map Prod.fst (toRow sampleRecord) = fieldNames :=
  predict_valid_mode_loaded [("sale", constPipe)] "sale" sampleRecord
    constPipe 412345 [] (Or.inl rfl) rfl rfl

/-! ### C2: invalid mode -/

/-- C2: any mode outside {"sale", "rent"} is rejected with the 400
invalid-mode error, for every model store and every record. -/
theorem predict_invalid_mode (st : ModelStore) (mode : String)
    (data : PropertyData) (h : mode ≠ "sale" ∧ mode ≠ "rent") :
    predict st mode data =
      (Response.httpError 400 "Mode must be 'sale' or 'rent'", []) := by
  unfold predict
  rw [if_pos]
  simp [h.1, h.2]

/-- Witness for C2: mode "boat" on an empty store and on a store holding
both pipelines gives the same 400. -/
theorem predict_invalid_mode_witness :
    predict [] "boat" sampleRecord =
        (Response.httpError 400 "Mode must be 'sale' or 'rent'", []) ∧
      predict [("sale", constPipe), ("rent", constPipe)] "boat" sampleRecord =
        (Response.httpError 400 "Mode must be 'sale' or 'rent'", []) :=
  ⟨predict_invalid_mode [] "boat" sampleRecord (by decide),
   predict_invalid_mode [("sale", constPipe), ("rent", constPipe)] "boat"
      sampleRecord (by decide)⟩

/-! ### C3: model unavailable -/

/-- C3: a structurally valid mode with no store entry yields the 500
model-unavailable error, which differs from the 400 invalid-mode
error. -/
theorem predict_model_unavailable (st : ModelStore) (mode : String)
    (data : PropertyData) (hmode : mode = "sale" ∨ mode = "rent")
    (habs : storeGet st mode = Option.none) :
    predict st mode data =
        (Response.httpError 500 ("Model for " ++ mode ++ " not loaded"), []) ∧
      Response.httpError 500 ("Model for " ++ mode ++ " not loaded") ≠
        Response.httpError 400 "Mode must be 'sale' or 'rent'" := by
  constructor
  · unfold predict
    rw [if_neg (not_not_intro (mode_mem_of_valid mode hmode)), habs]
  · intro hcontra
    exact absurd (Response.httpError.inj hcontra).1 (by decide)

/-- Witness for C3: a store holding only the sale pipeline, asked for
"rent". -/
theorem predict_model_unavailable_witness :
    predict [("sale", constPipe)] "rent" sampleRecord =
        (Response.httpError 500 ("Model for " ++ "rent" ++ " not loaded"), []) ∧
      Response.httpError 500 ("Model for " ++ "rent" ++ " not loaded") ≠
        Response.httpError 400 "Mode must be 'sale' or 'rent'" :=
  predict_model_unavailable [("sale", constPipe)] "rent" sampleRecord
    (Or.inr rfl) rfl

/-! ### C4: pipeline exception -/

/-- C4: when the loaded pipeline's invocation raises, `predict` catches
it and returns a 500 whose detail is the exception's message verbatim;
the pipeline was still invoked exactly once, on `toRow data`. -/
theorem predict_pipeline_exception (st : ModelStore) (mode : String)
    (data : PropertyData) (pipe : Pipeline) (e : String)
    (hmode : mode = "sale" ∨ mode = "rent")
    (hpipe : storeGet st mode = Option.some pipe)
    (herr : pipe.run (toRow data) = Except.error e) :
    predict st mode data = (Response.httpError 500 e, [toRow data]) := by
  unfold predict
  rw [if_neg (not_not_intro (mode_mem_of_valid mode hmode)), hpipe]
  simp [herr]

/-- Witness for C4: a pipeline raising a conversion error. -/
theorem predict_pipeline_exception_witness :
    predict [("rent", failPipe)] "rent" sampleRecord =
      (Response.httpError 500 "could not convert string to float",
        [toRow sampleRecord]) :=
  predict_pipeline_exception [("rent", failPipe)] "rent" sampleRecord
    failPipe "could not convert string to float" (Or.inr rfl) rfl rfl

/-! ### C6: best-effort startup loading -/

/-- C6: after `load_models`, the store has an entry for a mode exactly
when that mode's artifact file existed, for every combination of file
presence; one missing file never blocks the other mode's load. -/
theorem load_models_best_effort (se re : Bool) (ps pr : Pipeline) :
    (storeGet (load_models se re ps pr) "sale").isSome = se ∧
      (storeGet (load_models se re ps pr) "rent").isSome = re := by
  cases se <;> cases re <;> constructor <;> rfl

/-! ### C9: determinism / statelessness -/

/-- C9: a request never changes the model store, and with the store
fixed, repeating a call — even after an arbitrary interleaved request —
returns the identical response. -/
theorem predict_deterministic_stateless (st : ModelStore)
    (mode mode2 : String) (d d2 : PropertyData) :
    (handleRequest st mode d).2 = st ∧
      (handleRequest (handleRequest st mode d).2 mode2 d2).2 = st ∧
      (handleRequest
          (handleRequest (handleRequest st mode d).2 mode2 d2).2 mode d).1 =
        (handleRequest st mode d).1 :=
  ⟨rfl, rfl, rfl⟩

/-! ### C5: defaults for omitted optional fields -/

/-- C5: a payload supplying every required field with the correct
primitive type and omitting every optional field validates to a record
carrying the documented defaults: floor = 1, floorCount = 1,
buildYear = 1980, buildingMaterial = "brick", condition = "unknown",
all five amenity flags = 0. -/
theorem validate_defaults (p : Payload) (c t ow : String)
    (sq rm cd pc sd cld pod kd rd cgd phd : ℚ)
    (hcity : lookupKey p "city" = Option.some (PyVal.strV c))
    (htype : lookupKey p "type" = Option.some (PyVal.strV t))
    (hsq : lookupKey p "squareMeters" = Option.some (PyVal.floatV sq))
    (hrm : lookupKey p "rooms" = Option.some (PyVal.floatV rm))
    (hfl : lookupKey p "floor" = Option.none)
    (hfc : lookupKey p "floorCount" = Option.none)
    (hby : lookupKey p "buildYear" = Option.none)
    (hcd : lookupKey p "centreDistance" = Option.some (PyVal.floatV cd))
    (hpc : lookupKey p "poiCount" = Option.some (PyVal.floatV pc))
    (hsd : lookupKey p "schoolDistance" = Option.some (PyVal.floatV sd))
    (hcld : lookupKey p "clinicDistance" = Option.some (PyVal.floatV cld))
    (hpod : lookupKey p "postOfficeDistance" = Option.some (PyVal.floatV pod))
    (hkd : lookupKey p "kindergartenDistance" = Option.some (PyVal.floatV kd))
    (hrd : lookupKey p "restaurantDistance" = Option.some (PyVal.floatV rd))
    (hcgd : lookupKey p "collegeDistance" = Option.some (PyVal.floatV cgd))
    (hphd : lookupKey p "pharmacyDistance" = Option.some (PyVal.floatV phd))
    (how : lookupKey p "ownership" = Option.some (PyVal.strV ow))
    (hbm : lookupKey p "buildingMaterial" = Option.none)
    (hcnd : lookupKey p "condition" = Option.none)
    (hp : lookupKey p "hasParkingSpace" = Option.none)
    (hb : lookupKey p "hasBalcony" = Option.none)
    (he : lookupKey p "hasElevator" = Option.none)
    (hs7 : lookupKey p "hasSecurity" = Option.none)
    (hst : lookupKey p "hasStorageRoom" = Option.none) :
    validate p = Except.ok
      { city := c, type := t, squareMeters := sq, rooms := rm,
        floor := Option.some 1, floorCount := Option.some 1,
        buildYear := Option.some 1980, centreDistance := cd, poiCount := pc,
        schoolDistance := sd, clinicDistance := cld,
        postOfficeDistance := pod, kindergartenDistance := kd,
        restaurantDistance := rd, collegeDistance := cgd,
        pharmacyDistance := phd, ownership := ow,
        buildingMaterial := Option.some "brick",
        condition := Option.some "unknown", hasParkingSpace := 0,
        hasBalcony := 0, hasElevator := 0, hasSecurity := 0,
        hasStorageRoom := 0 } := by
  simp only [validate, reqStr, reqFloat, optFloat, optStr, intField,
    hcity, htype, hsq, hrm, hfl, hfc, hby, hcd, hpc, hsd, hcld, hpod, hkd,
    hrd, hcgd, hphd, how, hbm, hcnd, hp, hb, he, hs7, hst, ok_bind]

/-- The spec's §8 example payload: all required fields, no optional. -/
def payloadRequiredOnly : Payload :=
  [("city", PyVal.strV "warszawa"), ("type", PyVal.strV "blockOfFlats"),
   ("squareMeters", PyVal.floatV 50), ("rooms", PyVal.floatV 2),
   ("centreDistance", PyVal.floatV 2), ("poiCount", PyVal.floatV 10),
   ("schoolDistance", PyVal.floatV (1/2)), ("clinicDistance", PyVal.floatV 1),
   ("postOfficeDistance", PyVal.floatV (1/2)),
   ("kindergartenDistance", PyVal.floatV (1/2)),
   ("restaurantDistance", PyVal.floatV (1/2)),
   ("collegeDistance", PyVal.floatV 2),
   ("pharmacyDistance", PyVal.floatV (1/2)),
   ("ownership", PyVal.strV "condominium")]

/-- Witness for C5: the spec's example payload validates to the fully
defaulted example record. -/
theorem validate_defaults_witness :
    validate payloadRequiredOnly = Except.ok sampleRecord :=
  validate_defaults payloadRequiredOnly "warszawa" "blockOfFlats"
    "condominium" 50 2 2 10 (1/2) 1 (1/2) (1/2) (1/2) 2 (1/2)
    rfl rfl rfl rfl rfl rfl rfl rfl rfl rfl rfl rfl rfl rfl rfl rfl rfl rfl
    rfl rfl rfl rfl rfl rfl

/-! ### C10: extra payload fields are ignored -/

/-- A key matching no entry of a payload looks up to nothing. -/
theorem lookupKey_eq_none (extras : Payload) (n : String)
    (h : ∀ kv ∈ extras, kv.1 ≠ n) : lookupKey extras n = Option.none := by
  induction extras with
  | nil => rfl
  | cons kv rest ih =>
      obtain ⟨k, v⟩ := kv
      simp only [lookupKey]
      rw [if_neg (h (k, v) (List.mem_cons_self _ _))]
      exact ih fun kv2 hm => h kv2 (List.mem_cons_of_mem _ hm)

/-- Appending entries whose keys differ from `n` does not change the
lookup of `n`. -/
theorem lookupKey_append_of_fresh (p extras : Payload) (n : String)
    (h : ∀ kv ∈ extras, kv.1 ≠ n) :
    lookupKey (p ++ extras) n = lookupKey p n := by
  induction p with
  | nil => simpa using lookupKey_eq_none extras n h
  | cons kv rest ih =>
      obtain ⟨k, v⟩ := kv
      simp only [List.cons_append, lookupKey]
      by_cases hk : k = n
      · rw [if_pos hk, if_pos hk]
      · rw [if_neg hk, if_neg hk]
        exact ih

/-- `reqStr` reads the payload only through `lookupKey` at its field. -/
theorem reqStr_congr {p q : Payload} (n : String)
    (h : lookupKey p n = lookupKey q n) : reqStr p n = reqStr q n := by
  unfold reqStr
  rw [h]

/-- `reqFloat` reads the payload only through `lookupKey` at its field. -/
theorem reqFloat_congr {p q : Payload} (n : String)
    (h : lookupKey p n = lookupKey q n) : reqFloat p n = reqFloat q n := by
  unfold reqFloat
  rw [h]

/-- `optFloat` reads the payload only through `lookupKey` at its field. -/
theorem optFloat_congr {p q : Payload} (n : String) (d : ℚ)
    (h : lookupKey p n = lookupKey q n) : optFloat p n d = optFloat q n d := by
  unfold optFloat
  rw [h]

/-- `optStr` reads the payload only through `lookupKey` at its field. -/
theorem optStr_congr {p q : Payload} (n : String) (d : String)
    (h : lookupKey p n = lookupKey q n) : optStr p n d = optStr q n d := by
  unfold optStr
  rw [h]

/-- `intField` reads the payload only through `lookupKey` at its field. -/
theorem intField_congr {p q : Payload} (n : String) (d : Int)
    (h : lookupKey p n = lookupKey q n) : intField p n d = intField q n d := by
  unfold intField
  rw [h]

/-- Validation depends on the payload only at the declared field names. -/
theorem validate_congr {p q : Payload}
    (h : ∀ n ∈ fieldNames, lookupKey p n = lookupKey q n) :
    validate p = validate q := by
  unfold validate
  rw [reqStr_congr "city" (h "city" (by decide)),
    reqStr_congr "type" (h "type" (by decide)),
    reqFloat_congr "squareMeters" (h "squareMeters" (by decide)),
    reqFloat_congr "rooms" (h "rooms" (by decide)),
    optFloat_congr "floor" 1 (h "floor" (by decide)),
    optFloat_congr "floorCount" 1 (h "floorCount" (by decide)),
    optFloat_congr "buildYear" 1980 (h "buildYear" (by decide)),
    reqFloat_congr "centreDistance" (h "centreDistance" (by decide)),
    reqFloat_congr "poiCount" (h "poiCount" (by decide)),
    reqFloat_congr "schoolDistance" (h "schoolDistance" (by decide)),
    reqFloat_congr "clinicDistance" (h "clinicDistance" (by decide)),
    reqFloat_congr "postOfficeDistance" (h "postOfficeDistance" (by decide)),
    reqFloat_congr "kindergartenDistance" (h "kindergartenDistance" (by decide)),
    reqFloat_congr "restaurantDistance" (h "restaurantDistance" (by decide)),
    reqFloat_congr "collegeDistance" (h "collegeDistance" (by decide)),
    reqFloat_congr "pharmacyDistance" (h "pharmacyDistance" (by decide)),
    reqStr_congr "ownership" (h "ownership" (by decide)),
    optStr_congr "buildingMaterial" "brick" (h "buildingMaterial" (by decide)),
    optStr_congr "condition" "unknown" (h "condition" (by decide)),
    intField_congr "hasParkingSpace" 0 (h "hasParkingSpace" (by decide)),
    intField_congr "hasBalcony" 0 (h "hasBalcony" (by decide)),
    intField_congr "hasElevator" 0 (h "hasElevator" (by decide)),
    intField_congr "hasSecurity" 0 (h "hasSecurity" (by decide)),
    intField_congr "hasStorageRoom" 0 (h "hasStorageRoom" (by decide))]

/-- C10: appending payload fields whose names lie outside the declared
schema changes nothing about validation — the unknown keys are never
consulted — and the row handed to the pipeline carries exactly the
declared schema columns. -/
theorem validate_ignores_extra_fields (p extras : Payload) (d : PropertyData)
    (hextras : ∀ kv ∈ extras, kv.1 ∉ fieldNames) :
    validate (p ++ extras) = validate p ∧
      List.map Prod.fst (toRow d) = fieldNames := by
  refine ⟨?_, rfl⟩
  apply validate_congr
  intro n hn
  apply lookupKey_append_of_fresh
  intro kv hkv hkn
  exact hextras kv hkv (by rw [hkn]; exact hn)

/-- Two payload fields outside the declared schema. -/
def extrasSample : Payload :=
  [("petFriendly", PyVal.boolV true), ("agentNotes", PyVal.strV "sunny")]

/-- Witness for C10 at a concrete payload and extra fields. -/
theorem validate_ignores_extra_fields_witness :
    validate (payloadRequiredOnly ++ extrasSample) =
        validate payloadRequiredOnly ∧
      List.map Prod.fst (toRow sampleRecord) = fieldNames :=
  validate_ignores_extra_fields payloadRequiredOnly extrasSample sampleRecord
    (by decide)

/-! ### C7: no cross-field validation -/

/-- With a loaded pipeline for a valid mode, `predict` always reaches
the pipeline with the record's single row, whatever the record holds. -/
theorem predict_calls_of_loaded (st : ModelStore) (mode : String)
    (d : PropertyData) (pipe : Pipeline)
    (hmode : mode = "sale" ∨ mode = "rent")
    (hpipe : storeGet st mode = Option.some pipe) :
    (predict st mode d).2 = [toRow d] := by
  unfold predict
  rw [if_neg (not_not_intro (mode_mem_of_valid mode hmode)), hpipe]
  cases hrun : pipe.run (toRow d) with
  | error e => simp [hrun]
  | ok l => cases l <;> simp [hrun]

/-- A record whose floor/floorCount come straight from the payload, the
remaining optional fields defaulted. -/
def suppliedFloorsRecord (c t ow : String)
    (sq rm f1 f2 cd pc sd cld pod kd rd cgd phd : ℚ) : PropertyData :=
  { city := c, type := t, squareMeters := sq, rooms := rm,
    floor := Option.some f1, floorCount := Option.some f2,
    buildYear := Option.some 1980, centreDistance := cd, poiCount := pc,
    schoolDistance := sd, clinicDistance := cld, postOfficeDistance := pod,
    kindergartenDistance := kd, restaurantDistance := rd,
    collegeDistance := cgd, pharmacyDistance := phd, ownership := ow,
    buildingMaterial := Option.some "brick",
    condition := Option.some "unknown", hasParkingSpace := 0,
    hasBalcony := 0, hasElevator := 0, hasSecurity := 0, hasStorageRoom := 0 }

/-- C7: the service performs no cross-field validation — an individually
well-typed payload whose floor strictly exceeds its floorCount is
accepted by the validator and the resulting record is still handed to
the loaded pipeline (contrast the front end, which rejects
`floor > floor_count` before calling the service). -/
theorem no_cross_field_validation (p : Payload) (st : ModelStore)
    (pipe : Pipeline) (c t ow : String)
    (sq rm f1 f2 cd pc sd cld pod kd rd cgd phd : ℚ)
    (hineq : f2 < f1)
    (hcity : lookupKey p "city" = Option.some (PyVal.strV c))
    (htype : lookupKey p "type" = Option.some (PyVal.strV t))
    (hsq : lookupKey p "squareMeters" = Option.some (PyVal.floatV sq))
    (hrm : lookupKey p "rooms" = Option.some (PyVal.floatV rm))
    (hfl : lookupKey p "floor" = Option.some (PyVal.floatV f1))
    (hfc : lookupKey p "floorCount" = Option.some (PyVal.floatV f2))
    (hby : lookupKey p "buildYear" = Option.none)
    (hcd : lookupKey p "centreDistance" = Option.some (PyVal.floatV cd))
    (hpc : lookupKey p "poiCount" = Option.some (PyVal.floatV pc))
    (hsd : lookupKey p "schoolDistance" = Option.some (PyVal.floatV sd))
    (hcld : lookupKey p "clinicDistance" = Option.some (PyVal.floatV cld))
    (hpod : lookupKey p "postOfficeDistance" = Option.some (PyVal.floatV pod))
    (hkd : lookupKey p "kindergartenDistance" = Option.some (PyVal.floatV kd))
    (hrd : lookupKey p "restaurantDistance" = Option.some (PyVal.floatV rd))
    (hcgd : lookupKey p "collegeDistance" = Option.some (PyVal.floatV cgd))
    (hphd : lookupKey p "pharmacyDistance" = Option.some (PyVal.floatV phd))
    (how : lookupKey p "ownership" = Option.some (PyVal.strV ow))
    (hbm : lookupKey p "buildingMaterial" = Option.none)
    (hcnd : lookupKey p "condition" = Option.none)
    (hp : lookupKey p "hasParkingSpace" = Option.none)
    (hb : lookupKey p "hasBalcony" = Option.none)
    (he : lookupKey p "hasElevator" = Option.none)
    (hs7 : lookupKey p "hasSecurity" = Option.none)
    (hst : lookupKey p "hasStorageRoom" = Option.none)
    (hpipe : storeGet st "sale" = Option.some pipe) :
    validate p = Except.ok
        (suppliedFloorsRecord c t ow sq rm f1 f2 cd pc sd cld pod kd rd cgd phd) ∧
      (suppliedFloorsRecord c t ow sq rm f1 f2 cd pc sd cld pod kd rd cgd phd).floor =
          Option.some f1 ∧
      (suppliedFloorsRecord c t ow sq rm f1 f2 cd pc sd cld pod kd rd cgd phd).floorCount =
          Option.some f2 ∧
      f2 < f1 ∧
      (predict st "sale"
          (suppliedFloorsRecord c t ow sq rm f1 f2 cd pc sd cld pod kd rd cgd phd)).2 =
        [toRow (suppliedFloorsRecord c t ow sq rm f1 f2 cd pc sd cld pod kd rd cgd phd)] := by
  refine ⟨?_, rfl, rfl, hineq, ?_⟩
  · simp only [validate, reqStr, reqFloat, optFloat, optStr, intField,
      suppliedFloorsRecord, hcity, htype, hsq, hrm, hfl, hfc, hby, hcd, hpc,
      hsd, hcld, hpod, hkd, hrd, hcgd, hphd, how, hbm, hcnd, hp, hb, he,
      hs7, hst, ok_bind]
  · exact predict_calls_of_loaded st "sale" _ pipe (Or.inl rfl) hpipe

/-- Payload for the C7 witness: floor 10 in a 4-storey building. -/
def payloadFloorMismatch : Payload :=
  payloadRequiredOnly ++
    [("floor", PyVal.floatV 10), ("floorCount", PyVal.floatV 4)]

/-- Witness for C7: floor 10 > floorCount 4 is accepted and dispatched. -/
theorem no_cross_field_validation_witness :
    validate payloadFloorMismatch = Except.ok
        (suppliedFloorsRecord "warszawa" "blockOfFlats" "condominium"
          50 2 10 4 2 10 (1/2) 1 (1/2) (1/2) (1/2) 2 (1/2)) ∧
      (suppliedFloorsRecord "warszawa" "blockOfFlats" "condominium"
          50 2 10 4 2 10 (1/2) 1 (1/2) (1/2) (1/2) 2 (1/2)).floor =
        Option.some 10 ∧
      (suppliedFloorsRecord "warszawa" "blockOfFlats" "condominium"
          50 2 10 4 2 10 (1/2) 1 (1/2) (1/2) (1/2) 2 (1/2)).floorCount =
        Option.some 4 ∧
      (4 : ℚ) < 10 ∧
      (predict [("sale", constPipe)] "sale"
          (suppliedFloorsRecord "warszawa" "blockOfFlats" "condominium"
            50 2 10 4 2 10 (1/2) 1 (1/2) (1/2) (1/2) 2 (1/2))).2 =
        [toRow (suppliedFloorsRecord "warszawa" "blockOfFlats" "condominium"
          50 2 10 4 2 10 (1/2) 1 (1/2) (1/2) (1/2) 2 (1/2))] :=
  no_cross_field_validation payloadFloorMismatch [("sale", constPipe)]
    constPipe "warszawa" "blockOfFlats" "condominium"
    50 2 10 4 2 10 (1/2) 1 (1/2) (1/2) (1/2) 2 (1/2)
    (by norm_num) rfl rfl rfl rfl rfl rfl rfl rfl rfl rfl rfl rfl rfl rfl
    rfl rfl rfl rfl rfl rfl rfl rfl rfl rfl rfl

/-! ### C8: amenity-flag / non-null invariant -/

/-- The claimed flag invariant: every amenity flag is 0 or 1. -/
def flagsZeroOne (r : PropertyData) : Prop :=
  (r.hasParkingSpace = 0 ∨ r.hasParkingSpace = 1) ∧
    (r.hasBalcony = 0 ∨ r.hasBalcony = 1) ∧
    (r.hasElevator = 0 ∨ r.hasElevator = 1) ∧
    (r.hasSecurity = 0 ∨ r.hasSecurity = 1) ∧
    (r.hasStorageRoom = 0 ∨ r.hasStorageRoom = 1)

/-- The claimed presence invariant: no field of the record is null (only
the `Optional` fields can ever be `None`). -/
def allFieldsPresent (r : PropertyData) : Prop :=
  r.floor ≠ Option.none ∧ r.floorCount ≠ Option.none ∧
    r.buildYear ≠ Option.none ∧ r.buildingMaterial ≠ Option.none ∧
    r.condition ≠ Option.none

/-- Payload refuting C8: amenity flag `2` and an explicit `null` floor,
all other fields as in the example payload. -/
def payloadFlagTwoNullFloor : Payload :=
  payloadRequiredOnly ++
    [("hasParkingSpace", PyVal.intV 2), ("floor", PyVal.null)]

/-- The record the validator produces for `payloadFlagTwoNullFloor`. -/
def recFlagTwo : PropertyData :=
  { sampleRecord with floor := Option.none, hasParkingSpace := 2 }

/-- C8 counterexample: the validator accepts an amenity flag of 2 and an
explicit null floor, so the produced record violates the claimed
0/1-flags-and-no-null invariant. -/
theorem claimC8_counterexample :
    validate payloadFlagTwoNullFloor = Except.ok recFlagTwo ∧
      ¬ (flagsZeroOne recFlagTwo ∧ allFieldsPresent recFlagTwo) := by
  constructor
  · rfl
  · unfold flagsZeroOne allFieldsPresent
    decide


/-- Inversion of a successful `Except` bind: the first step succeeded
and the continuation succeeded on its value. -/
theorem bind_ok_inv {ε α β : Type} {ma : Except ε α} {f : α → Except ε β}
    {b : β} (h : ma >>= f = Except.ok b) :
    ∃ a, ma = Except.ok a ∧ f a = Except.ok b := by
  cases ma with
  | error e => exact Except.noConfusion h
  | ok a => exact ⟨a, rfl, h⟩

/-- A successful `optFloat` read is non-null unless the payload supplied
an explicit null for the field. -/
theorem optFloat_ok_ne_none {p : Payload} {n : String} {d : ℚ}
    {v : Option ℚ} (hnn : lookupKey p n ≠ Option.some PyVal.null)
    (h : optFloat p n d = Except.ok v) : v ≠ Option.none := by
  unfold optFloat at h
  cases hl : lookupKey p n with
  | none =>
      rw [hl] at h
      simp only [Except.ok.injEq] at h
      subst h
      simp
  | some pv =>
      cases pv with
      | null => exact absurd hl hnn
      | boolV b => rw [hl] at h; exact Except.noConfusion h
      | intV i =>
          rw [hl] at h
          simp only [Except.ok.injEq] at h
          subst h
          simp
      | floatV q =>
          rw [hl] at h
          simp only [Except.ok.injEq] at h
          subst h
          simp
      | strV s => rw [hl] at h; exact Except.noConfusion h

/-- A successful `optStr` read is non-null unless the payload supplied
an explicit null for the field. -/
theorem optStr_ok_ne_none {p : Payload} {n : String} {d : String}
    {v : Option String} (hnn : lookupKey p n ≠ Option.some PyVal.null)
    (h : optStr p n d = Except.ok v) : v ≠ Option.none := by
  unfold optStr at h
  cases hl : lookupKey p n with
  | none =>
      rw [hl] at h
      simp only [Except.ok.injEq] at h
      subst h
      simp
  | some pv =>
      cases pv with
      | null => exact absurd hl hnn
      | boolV b => rw [hl] at h; exact Except.noConfusion h
      | intV i => rw [hl] at h; exact Except.noConfusion h
      | floatV q => rw [hl] at h; exact Except.noConfusion h
      | strV s =>
          rw [hl] at h
          simp only [Except.ok.injEq] at h
          subst h
          simp

/-- An amenity flag read from a payload that omits the field or supplies
it as the integer 0 or 1 comes out as 0 or 1. -/
theorem intField_ok_zero_one {p : Payload} {n : String} {k : Int}
    (hl : lookupKey p n = Option.none ∨
      lookupKey p n = Option.some (PyVal.intV 0) ∨
      lookupKey p n = Option.some (PyVal.intV 1))
    (h : intField p n 0 = Except.ok k) : k = 0 ∨ k = 1 := by
  unfold intField at h
  rcases hl with hl | hl | hl <;> rw [hl] at h <;>
    simp only [Except.ok.injEq] at h <;> subst h
  · exact Or.inl rfl
  · exact Or.inl rfl
  · exact Or.inr rfl

/-- C8 amended: the validator does not itself force the amenity flags
into {0, 1} or forbid explicit nulls (see the counterexample); but
whenever the payload omits each amenity flag or supplies it as the
integer 0 or 1, and does not supply an explicit null for any optional
field, every Property Record the validator produces has its five
amenity flags each equal to 0 or 1 and every field present and non-null
at the point of inference. -/
theorem validate_flags_amended (p : Payload) (r : PropertyData)
    (hval : validate p = Except.ok r)
    (hfl : lookupKey p "floor" ≠ Option.some PyVal.null)
    (hfc : lookupKey p "floorCount" ≠ Option.some PyVal.null)
    (hby : lookupKey p "buildYear" ≠ Option.some PyVal.null)
    (hbm : lookupKey p "buildingMaterial" ≠ Option.some PyVal.null)
    (hcnd : lookupKey p "condition" ≠ Option.some PyVal.null)
    (hp : lookupKey p "hasParkingSpace" = Option.none ∨
      lookupKey p "hasParkingSpace" = Option.some (PyVal.intV 0) ∨
      lookupKey p "hasParkingSpace" = Option.some (PyVal.intV 1))
    (hb : lookupKey p "hasBalcony" = Option.none ∨
      lookupKey p "hasBalcony" = Option.some (PyVal.intV 0) ∨
      lookupKey p "hasBalcony" = Option.some (PyVal.intV 1))
    (he : lookupKey p "hasElevator" = Option.none ∨
      lookupKey p "hasElevator" = Option.some (PyVal.intV 0) ∨
      lookupKey p "hasElevator" = Option.some (PyVal.intV 1))
    (hs7 : lookupKey p "hasSecurity" = Option.none ∨
      lookupKey p "hasSecurity" = Option.some (PyVal.intV 0) ∨
      lookupKey p "hasSecurity" = Option.some (PyVal.intV 1))
    (hst : lookupKey p "hasStorageRoom" = Option.none ∨
      lookupKey p "hasStorageRoom" = Option.some (PyVal.intV 0) ∨
      lookupKey p "hasStorageRoom" = Option.some (PyVal.intV 1)) :
    flagsZeroOne r ∧ allFieldsPresent r := by
  unfold validate at hval
  obtain ⟨city, hc1, hval⟩ := bind_ok_inv hval
  obtain ⟨ty, hc2, hval⟩ := bind_ok_inv hval
  obtain ⟨sq, hc3, hval⟩ := bind_ok_inv hval
  obtain ⟨rm, hc4, hval⟩ := bind_ok_inv hval
  obtain ⟨fl, hc5, hval⟩ := bind_ok_inv hval
  obtain ⟨fc, hc6, hval⟩ := bind_ok_inv hval
  obtain ⟨byr, hc7, hval⟩ := bind_ok_inv hval
  obtain ⟨cd, hc8, hval⟩ := bind_ok_inv hval
  obtain ⟨pc, hc9, hval⟩ := bind_ok_inv hval
  obtain ⟨sd, hc10, hval⟩ := bind_ok_inv hval
  obtain ⟨cld, hc11, hval⟩ := bind_ok_inv hval
  obtain ⟨pod, hc12, hval⟩ := bind_ok_inv hval
  obtain ⟨kd, hc13, hval⟩ := bind_ok_inv hval
  obtain ⟨rd, hc14, hval⟩ := bind_ok_inv hval
  obtain ⟨cgd, hc15, hval⟩ := bind_ok_inv hval
  obtain ⟨phd, hc16, hval⟩ := bind_ok_inv hval
  obtain ⟨ow, hc17, hval⟩ := bind_ok_inv hval
  obtain ⟨bm, hc18, hval⟩ := bind_ok_inv hval
  obtain ⟨cnd, hc19, hval⟩ := bind_ok_inv hval
  obtain ⟨k1, hc20, hval⟩ := bind_ok_inv hval
  obtain ⟨k2, hc21, hval⟩ := bind_ok_inv hval
  obtain ⟨k3, hc22, hval⟩ := bind_ok_inv hval
  obtain ⟨k4, hc23, hval⟩ := bind_ok_inv hval
  obtain ⟨k5, hc24, hval⟩ := bind_ok_inv hval
  simp only [Except.ok.injEq] at hval
  subst hval
  unfold flagsZeroOne allFieldsPresent
  constructor
  · exact ⟨intField_ok_zero_one hp hc20, intField_ok_zero_one hb hc21,
      intField_ok_zero_one he hc22, intField_ok_zero_one hs7 hc23,
      intField_ok_zero_one hst hc24⟩
  · exact ⟨optFloat_ok_ne_none hfl hc5, optFloat_ok_ne_none hfc hc6,
      optFloat_ok_ne_none hby hc7, optStr_ok_ne_none hbm hc18,
      optStr_ok_ne_none hcnd hc19⟩

/-- Witness for the C8 amendment at the spec's §8 example payload, which
omits every amenity flag and every optional field. -/
theorem validate_flags_amended_witness :
    flagsZeroOne sampleRecord ∧ allFieldsPresent sampleRecord :=
  validate_flags_amended payloadRequiredOnly sampleRecord rfl
    (by decide) (by decide) (by decide) (by decide) (by decide)
    (Or.inl rfl) (Or.inl rfl) (Or.inl rfl) (Or.inl rfl) (Or.inl rfl)
